import Mathlib

/-!
Verification of the Tad full-node protocol orchestration layer
(`tad/full_node/full_node_api.py` and `tad/types/mempool_item.py`).

The Python handlers are shallowly embedded as pure Lean functions.  Hashes,
peer node ids, task ids and puzzle hashes are modelled as `Nat`; Python dicts
become association lists over `Nat` keys; Python sets of peer ids become
duplicate-free `List Nat`; asynchronous collaborator calls (mempool manager,
blockchain store, peer transport) become explicit oracle functions packaged in
environment structures.  Every handler returns, besides its `Optional[Message]`
result, the list of observable effects it performed (messages sent, store
mutations, candidate blocks registered), so that claims about "no message is
sent" or "no entry is added" are about those effect lists.
-/

set_option autoImplicit false

namespace Tad

/-! ## Association-list model of Python dicts (`Nat` keys) -/

/-- Lookup in an association list: model of `d[k]` / `k in d` for a Python dict. -/
def alookup {α : Type} : List (Nat × α) → Nat → Option α
  | [], _ => none
  | (k, v) :: rest, key => if k = key then some v else alookup rest key

/-- Update/insert in an association list: model of `d[k] = v`. -/
def aset {α : Type} : List (Nat × α) → Nat → α → List (Nat × α)
  | [], key, v => [(key, v)]
  | (k, w) :: rest, key, v =>
    if k = key then (key, v) :: rest else (k, w) :: aset rest key v

/-- Removal from an association list: model of `d.pop(k)` (all bindings of `k` go). -/
def aerase {α : Type} (m : List (Nat × α)) (key : Nat) : List (Nat × α) :=
  m.filter (fun p => p.1 ≠ key)

/-! ## Transaction gossip state (`FullNodeStore` fields used by `new_transaction`)

`full_node_store.pending_tx_request : Dict[bytes32, bytes32]` maps a
transaction id to the peer the fetch was started from (single-flight marker),
`peers_with_tx : Dict[bytes32, Set[bytes32]]` is the fan-out set of peers that
advertised the id, and `tx_fetch_tasks : Dict[bytes32, Task]` holds the
running fetch tasks by task id (we record only the task ids). -/

structure FullNodeStore where
  pending_tx_request : List (Nat × Nat)
  peers_with_tx : List (Nat × List Nat)
  tx_fetch_tasks : List Nat
  deriving DecidableEq, Repr

/-- Environment read by `new_transaction`: sync flags and the two mempool
admission pre-checks (`seen`, `is_fee_enough`). -/
structure NewTxEnv where
  sync_mode : Bool
  synced : Bool
  seen : Nat → Bool
  is_fee_enough : Nat → Nat → Bool

/-- Result of the `new_transaction` handler: the mutated store and the id of
the fetch task the handler spawned, if any.  The handler itself returns `None`
on every path and sends no message directly (all `RequestTransaction` traffic
happens inside the spawned `tx_request_and_timeout` task). -/
structure NewTxResult where
  store : FullNodeStore
  fetch_task_started : Option Nat
  deriving Repr

/-- Embedding of `FullNodeAPI.new_transaction`
(`full_node_api.py:119-198`).  Mirrors the source branch for branch:
drop while syncing / not synced / already seen / fee too low; single-flight
fan-in when a fetch is pending; otherwise register the single-flight marker,
the fan-out set, and spawn the fetch task. -/
def new_transaction (env : NewTxEnv) (store : FullNodeStore)
    (transaction_id fee cost peer_node_id task_id : Nat) : NewTxResult :=
  if env.sync_mode then ⟨store, none⟩
  else if !env.synced then ⟨store, none⟩
  else if env.seen transaction_id then ⟨store, none⟩
  else if env.is_fee_enough fee cost then
    if (alookup store.pending_tx_request transaction_id).isSome then
      match alookup store.peers_with_tx transaction_id with
      | some current_set =>
        if peer_node_id ∈ current_set then ⟨store, none⟩
        else
          ⟨{ store with
              peers_with_tx :=
                aset store.peers_with_tx transaction_id (peer_node_id :: current_set) },
            none⟩
      | none =>
        ⟨{ store with
            peers_with_tx := aset store.peers_with_tx transaction_id [peer_node_id] },
          none⟩
    else
      ⟨{ store with
          pending_tx_request := aset store.pending_tx_request transaction_id peer_node_id,
          peers_with_tx := aset store.peers_with_tx transaction_id [peer_node_id],
          tx_fetch_tasks := task_id :: store.tx_fetch_tasks },
        some task_id⟩
  else ⟨store, none⟩

/-- Python `set.add` on a duplicate-free list of peer ids. -/
def insertPeer (p : Nat) (s : List Nat) : List Nat :=
  if p ∈ s then s else p :: s

/-! ## The bounded fetch-retry task (`tx_request_and_timeout`) -/

/-- Embedding of the retry loop body of `tx_request_and_timeout`
(`full_node_api.py:156-180`).  The fan-out set is modelled as a list popped
from the front (Python `set.pop` picks an arbitrary element; the list fixes
one pop order).  `connected p` models `p in full_node.server.all_connections`;
`seen_after k` models `mempool_manager.seen(transaction_id)` as observed after
the `k`-th request round.  The function returns the peers a
`RequestTransaction` was sent to, in order.  Each iteration pops one peer, so
the recursion is structural in the list; `counter` only advances on rounds
that actually send (disconnected peers `continue` without incrementing). -/
def tx_request_loop (connected : Nat → Bool) (seen_after : Nat → Bool) :
    List Nat → Nat → List Nat
  | [], _ => []
  | peer_id :: rest, counter =>
    if counter = 10 then []
    else if connected peer_id then
      peer_id :: (if seen_after (counter + 1) then [] else tx_request_loop connected seen_after rest (counter + 1))
    else tx_request_loop connected seen_after rest counter

/-- The `finally` block of `tx_request_and_timeout`
(`full_node_api.py:183-190`): unconditionally pop the transaction id from
`peers_with_tx` and `pending_tx_request` and the task id from
`tx_fetch_tasks`.  It is applied to whatever store the task observes when it
terminates, on every termination path (normal, break, cancellation, error). -/
def tx_fetch_cleanup (store : FullNodeStore) (transaction_id task_id : Nat) : FullNodeStore :=
  { store with
    peers_with_tx := aerase store.peers_with_tx transaction_id,
    pending_tx_request := aerase store.pending_tx_request transaction_id,
    tx_fetch_tasks := store.tx_fetch_tasks.filter (fun t => t ≠ task_id) }

/-- A complete run of `tx_request_and_timeout` (`full_node_api.py:156-190`):
run the retry loop over the fan-out set recorded for the id, then run the
`finally` cleanup.  Returns the final store and the requests sent. -/
def tx_request_and_timeout (connected : Nat → Bool) (seen_after : Nat → Bool)
    (store : FullNodeStore) (transaction_id task_id : Nat) : FullNodeStore × List Nat :=
  let requests :=
    tx_request_loop connected seen_after
      ((alookup store.peers_with_tx transaction_id).getD []) 0
  (tx_fetch_cleanup store transaction_id task_id, requests)

/-- The `RequestTransaction` messages attributable to one `new_transaction`
call: the handler sends none itself; if it spawned a fetch task, the requests
are those the task's `tx_request_and_timeout` run sends. -/
def new_transaction_requests (env : NewTxEnv) (connected seen_after : Nat → Bool)
    (store : FullNodeStore) (transaction_id fee cost peer_node_id task_id : Nat) : List Nat :=
  let r := new_transaction env store transaction_id fee cost peer_node_id task_id
  match r.fetch_task_started with
  | none => []
  | some tid => (tx_request_and_timeout connected seen_after r.store transaction_id tid).2

/-! ## Sub-slot backfill (`new_signage_point_or_end_of_sub_slot`) -/

/-- Model of an `EndOfSubSlotBundle` as the handlers read it: the
challenge-chain end-of-slot VDF's challenge and iteration count, the
reward-chain end-of-slot VDF's challenge and iteration count, the hash of the
bundle's reward chain (`reward_chain.get_hash()`), and the optional new
difficulty / sub-slot iterations carried at epoch boundaries. -/
structure EndOfSubSlotBundleM where
  cc_challenge : Nat
  cc_iters : Nat
  rc_challenge : Nat
  rc_iters : Nat
  rc_hash : Nat
  new_difficulty : Option Nat
  new_sub_slot_iters : Option Nat
  deriving DecidableEq, Repr

/-- The fields of `full_node_protocol.NewSignagePointOrEndOfSubSlot`. -/
structure NewSPMsg where
  challenge_hash : Nat
  index_from_challenge : Nat
  last_rc_infusion : Nat
  prev_challenge_hash : Option Nat
  deriving DecidableEq, Repr

/-- Environment read by `new_signage_point_or_end_of_sub_slot`:
`have_signage_point ch idx rc` models `get_signage_point_by_index(ch, idx, rc)
is not None`, `get_sub_slot ch` models `get_sub_slot(ch) is not None`, and
`peer_response ch rc` models the peer's answer to
`RequestSignagePointOrEndOfSubSlot(ch, 0, rc)` — `some eos` when the answer is
a `RespondEndOfSubSlot`, `none` for any other response. -/
structure NewSPEnv where
  sync_mode : Bool
  have_signage_point : Nat → Nat → Nat → Bool
  have_newer_signage_point : Nat → Nat → Nat → Bool
  get_sub_slot : Nat → Bool
  genesis_challenge : Nat
  peer_response : Nat → Nat → Option EndOfSubSlotBundleM

/-- How one run of the backfill loop ended. -/
inductive BackfillResult where
  | diverged
  | invalid_response
  | reconverged (replay : List EndOfSubSlotBundleM)
  | exhausted
  deriving DecidableEq, Repr

/-- Observable effects of one run of the backfill loop: the
`RequestSignagePointOrEndOfSubSlot(challenge, 0, last_rc)` requests issued (as
`(challenge, last_rc)` pairs, in order), the `RespondEndOfSubSlot` bundles
received (in receipt order, newest sub-slot first), and how the loop ended. -/
structure BackfillOut where
  requests : List (Nat × Nat)
  received : List EndOfSubSlotBundleM
  result : BackfillResult
  deriving DecidableEq, Repr

/-- Embedding of the backfill loop of `new_signage_point_or_end_of_sub_slot`
(`full_node_api.py:466-505`): walk backward from the announced challenge, one
end-of-slot bundle per iteration, for at most `fuel` iterations (the source
runs `for _ in range(30)`).  Abort as `diverged` when 3 or more non-empty
sub-slots (challenge-chain vs reward-chain iteration mismatch) were seen
before reconvergence; abort as `invalid_response` when the peer answers with
anything but a `RespondEndOfSubSlot`; on reaching a stored sub-slot or the
genesis challenge, reconverge with the collected bundles in reverse receipt
order (oldest first), ready for replay. -/
def backfill_loop (env : NewSPEnv) :
    Nat → Nat → Nat → Nat → List EndOfSubSlotBundleM → BackfillOut
  | 0, _, _, _, _ => ⟨[], [], .exhausted⟩
  | fuel + 1, challenge, last_rc, num_non_empty, collected =>
    if 3 ≤ num_non_empty then ⟨[], [], .diverged⟩
    else
      match env.peer_response challenge last_rc with
      | none => ⟨[(challenge, last_rc)], [], .invalid_response⟩
      | some eos =>
        if env.get_sub_slot eos.cc_challenge ∨ eos.cc_challenge = env.genesis_challenge then
          ⟨[(challenge, last_rc)], [eos], .reconverged (collected ++ [eos]).reverse⟩
        else
          let num' := if eos.cc_iters ≠ eos.rc_iters then num_non_empty + 1 else num_non_empty
          let o := backfill_loop env fuel eos.cc_challenge eos.rc_challenge num' (collected ++ [eos])
          ⟨(challenge, last_rc) :: o.requests, eos :: o.received, o.result⟩

/-- Observable effects of `new_signage_point_or_end_of_sub_slot`: the backfill
requests issued, the end-of-slot bundles replayed through
`respond_end_of_sub_slot` (in call order), and the handler's returned message,
a `RequestSignagePointOrEndOfSubSlot(challenge, index, last_rc)` triple when
present. -/
structure NewSPResult where
  backfill_requests : List (Nat × Nat)
  replayed_eos : List EndOfSubSlotBundleM
  reply : Option (Nat × Nat × Nat)
  deriving DecidableEq, Repr

/-- Embedding of `FullNodeAPI.new_signage_point_or_end_of_sub_slot`
(`full_node_api.py:444-523`): drop when syncing, when the exact signage point
is stored, or when a newer one is stored; backfill when this is an end of
sub slot (`index == 0`, `prev_challenge_hash` set) whose previous sub-slot is
unknown, returning `None` in every backfill outcome; otherwise answer with a
request for the missing end of sub slot (`index > 0`, sub-slot unknown,
non-genesis) or for the announced point itself. -/
def new_signage_point_or_end_of_sub_slot (env : NewSPEnv) (m : NewSPMsg) : NewSPResult :=
  if env.sync_mode then ⟨[], [], none⟩
  else if env.have_signage_point m.challenge_hash m.index_from_challenge m.last_rc_infusion then
    ⟨[], [], none⟩
  else if env.have_newer_signage_point m.challenge_hash m.index_from_challenge m.last_rc_infusion then
    ⟨[], [], none⟩
  else
    match m.prev_challenge_hash, m.index_from_challenge with
    | some prev, 0 =>
      if env.get_sub_slot prev then
        ⟨[], [], some (m.challenge_hash, m.index_from_challenge, m.last_rc_infusion)⟩
      else
        let o := backfill_loop env 30 m.challenge_hash m.last_rc_infusion 0 []
        match o.result with
        | .reconverged replay => ⟨o.requests, replay, none⟩
        | _ => ⟨o.requests, [], none⟩
    | _, _ =>
      if 0 < m.index_from_challenge ∧ m.challenge_hash ≠ env.genesis_challenge ∧
          ¬ env.get_sub_slot m.challenge_hash then
        ⟨[], [], some (m.challenge_hash, 0, m.last_rc_infusion)⟩
      else ⟨[], [], some (m.challenge_hash, m.index_from_challenge, m.last_rc_infusion)⟩

/-! ## Candidate-block assembly (`declare_proof_of_space` / `signed_values`)

Only the data these handlers actually read is modelled.  Cryptographic
signatures, proof-of-space objects and the iteration mathematics
(`calculate_iterations_quality`, `calculate_sp_iters`, `calculate_ip_iters`)
are external collaborators with no early-return path in the handler, so they
do not appear in the model; `quality_string` (asserted non-`None` in the
source) is a parameter. -/

/-- A consensus block record as read by the handler (the fields touched by
`declare_proof_of_space`). -/
structure BlockRecordM where
  height : Nat
  prev_hash : Nat
  header_hash : Nat
  reward_infusion_new_challenge : Nat
  finished_reward_slot_hashes : List Nat
  is_transaction_block : Bool
  timestamp : Nat
  deriving DecidableEq, Repr

/-- A VDF info as read by the handler: its challenge and the hash of its
output (`output.get_hash()`). -/
structure VDFInfoM where
  challenge : Nat
  output_hash : Nat
  deriving DecidableEq, Repr

/-- A stored signage point: challenge-chain and reward-chain VDF infos
(present together or absent together; proofs are never read here). -/
structure SignagePointM where
  cc_vdf : Option VDFInfoM
  rc_vdf : Option VDFInfoM
  deriving DecidableEq, Repr

/-- The fields of `farmer_protocol.DeclareProofOfSpace` read by the handler. -/
structure DPSRequest where
  challenge_hash : Nat
  challenge_chain_sp : Nat
  reward_chain_sp : Nat
  signage_point_index : Nat
  deriving DecidableEq, Repr

/-- An unfinished block as the claims observe it: whether it is a transaction
block, its optional generator, the timestamp it was assembled with, and its
foliage hashes (`foliage.foliage_block_data.get_hash()` and
`foliage_transaction_block_hash`, the latter collapsed to a `Nat`). -/
structure UnfinishedBlockM where
  is_transaction_block : Bool
  transactions_generator : Option Nat
  timestamp : Nat
  foliage_hash : Nat
  foliage_transaction_block_hash : Nat
  deriving DecidableEq, Repr

/-- The block-creation outputs that do not depend on the handler: whether the
block is a transaction block and its two foliage hashes, as a function of the
generator handed to `create_unfinished_block`. -/
structure BlockTraits where
  is_tx : Bool
  foliage_hash : Nat
  ftb_hash : Nat
  deriving DecidableEq, Repr

/-- Modelled from the spec: `create_unfinished_block`
(`tad/consensus/block_creation.py`) is not under `src/`.  Per the spec (§4.2,
§3) the assembled unfinished block is "a block body + header" carrying the
handler-computed timestamp and the optional generator the handler passes in;
everything block-creation decides on its own (transaction-block status,
foliage hashes) is abstracted as a `traits` oracle keyed on that generator. -/
def create_unfinished_block (traits : Option Nat → BlockTraits)
    (timestamp : Nat) (generator : Option Nat) : UnfinishedBlockM :=
  { is_transaction_block := (traits generator).is_tx
    transactions_generator := generator
    timestamp := timestamp
    foliage_hash := (traits generator).foliage_hash
    foliage_transaction_block_hash := (traits generator).ftb_hash }

/-- Result of `create_bundle_from_mempool`: aggregated signature, coin
additions/removals, and the block generator derived from the spend bundle
(via the previous-generator template or `simple_solution_generator`). -/
structure MempoolBundleM where
  aggregated_signature : Nat
  additions : List Nat
  removals : List Nat
  generator : Nat
  deriving DecidableEq, Repr

/-- Environment read by `declare_proof_of_space`.  `block_record h = none`
models `blockchain.block_record(h)` raising (which kills the handler with no
effects); `try_block_record` is the `Optional`-returning lookup;
`create_bundle_from_mempool` already folds in the source's
exception-to-`None` handling; `get_finished_sub_slots = none` covers both a
`None` return and the `ValueError` path. -/
structure DPSEnv where
  sync_mode : Bool
  get_signage_point : Nat → Option SignagePointM
  genesis_challenge : Nat
  get_sub_slot : Nat → Option (EndOfSubSlotBundleM × Nat × Nat)
  get_peak : Option BlockRecordM
  block_record : Nat → Option BlockRecordM
  try_block_record : Nat → Option BlockRecordM
  finished_sub_slots : List (Option EndOfSubSlotBundleM)
  create_bundle_from_mempool : Nat → Option MempoolBundleM
  get_finished_sub_slots : Option BlockRecordM → Nat → Option (List EndOfSubSlotBundleM)
  block_traits : Option Nat → BlockTraits

/-- The `while not curr_l_tb.is_transaction_block` walk
(`full_node_api.py:720-722`).  The source loop is unbounded; in a well-formed
chain each hop decreases the height, so the handler instantiates `fuel` with
the peak height.  `none` models the lookup raising / the walk diverging. -/
def walk_to_last_tx_block (block_record : Nat → Option BlockRecordM) :
    Nat → BlockRecordM → Option BlockRecordM
  | 0, b => if b.is_transaction_block then some b else none
  | fuel + 1, b =>
    if b.is_transaction_block then some b
    else
      match block_record b.prev_hash with
      | none => none
      | some p => walk_to_last_tx_block block_record fuel p

/-- The `for eos, _, _ in reversed(finished_sub_slots)` backtrack through
empty sub-slots (`full_node_api.py:771-774`): each stored end-of-slot bundle
whose reward-chain hash equals the current challenge moves the challenge one
sub-slot back. -/
def backtrack_empty_sub_slots (slots : List (Option EndOfSubSlotBundleM)) (rc : Nat) : Nat :=
  slots.reverse.foldl
    (fun acc eos? =>
      match eos? with
      | some eos => if eos.rc_hash = acc then eos.rc_challenge else acc
      | none => acc)
    rc

/-- The bounded previous-block search (`full_node_api.py:776-790`): walk back
from the peak while `attempts < 10` (`fuel = 10 - attempts`), stopping with
`found` at the block whose `reward_infusion_new_challenge` matches the
challenge, or—when the block's last finished-reward-slot hash matches—one
block further back.  Returns the final `prev_b` and the `found` flag. -/
def find_prev_block (try_block : Nat → Option BlockRecordM) (rc_challenge : Nat) :
    Option BlockRecordM → Nat → Option BlockRecordM × Bool
  | none, _ => (none, false)
  | some b, 0 => (some b, false)
  | some b, fuel + 1 =>
    if b.reward_infusion_new_challenge = rc_challenge then (some b, true)
    else if b.finished_reward_slot_hashes ≠ [] ∧
        b.finished_reward_slot_hashes.getLast? = some rc_challenge then
      (try_block b.prev_hash, true)
    else find_prev_block try_block rc_challenge (try_block b.prev_hash) fuel

/-- The block reached after `k` hops of `try_block_record` along `prev_hash`
links (used to state what `find_prev_block`'s bound means). -/
def nth_prev (try_block : Nat → Option BlockRecordM) :
    Nat → Option BlockRecordM → Option BlockRecordM
  | 0, b => b
  | k + 1, b =>
    match b with
    | none => none
    | some b' => nth_prev try_block k (try_block b'.prev_hash)

/-- The matching condition of the previous-block search at one block. -/
def rc_matches (rc_challenge : Nat) (b : BlockRecordM) : Prop :=
  b.reward_infusion_new_challenge = rc_challenge ∨
    (b.finished_reward_slot_hashes ≠ [] ∧
      b.finished_reward_slot_hashes.getLast? = some rc_challenge)

/-- The `while curr is not None and not curr.is_transaction_block and
curr.height != 0` walk of the timestamp rule (`full_node_api.py:857-859`).
`fuel` is instantiated with the starting height (in a well-formed chain the
loop stops at height 0 at the latest); `none` on fuel exhaustion models a
diverging walk on a malformed chain. -/
def walk_to_prev_tx_block (try_block : Nat → Option BlockRecordM) :
    Nat → Option BlockRecordM → Option BlockRecordM
  | _, none => none
  | 0, some b => if b.is_transaction_block ∨ b.height = 0 then some b else none
  | fuel + 1, some b =>
    if b.is_transaction_block ∨ b.height = 0 then some b
    else walk_to_prev_tx_block try_block fuel (try_block b.prev_hash)

/-- The fuel the handler gives a chain walk starting at `prev_b`: the height
of the starting block (a well-formed walk stops at height 0 at the latest). -/
def start_fuel (prev_b : Option BlockRecordM) : Nat :=
  match prev_b with
  | some b => b.height
  | none => 0

/-- `height = prev_b.height + 1` or 0 at genesis (`full_node_api.py:891-894`). -/
def next_height (prev_b : Option BlockRecordM) : Nat :=
  match prev_b with
  | some b => b.height + 1
  | none => 0

/-- The monotonic-timestamp rule (`full_node_api.py:856-863`): start from
`now` (`time.time()`), walk back to the previous transaction block, and bump
to its timestamp plus one when not strictly above it. -/
def compute_timestamp (try_block : Nat → Option BlockRecordM) (now : Nat)
    (prev_b : Option BlockRecordM) : Nat :=
  match walk_to_prev_tx_block try_block (start_fuel prev_b) prev_b with
  | none => now
  | some curr => if now ≤ curr.timestamp then curr.timestamp + 1 else now

/-- Observable effects of `declare_proof_of_space`: the
`add_candidate_block(quality, height, block, backup)` calls in order, the
`RequestSignedValues(quality, foliage_hash, foliage_transaction_block_hash)`
messages sent to the farmer, plus two pieces of instrumentation — the
`(rc_challenge, peak)` argument of the previous-block search when that search
ran, and the `(prev_b, timestamp, generator)` actually used when block
assembly was reached. -/
structure AssemblyInfo where
  prev_b : Option BlockRecordM
  timestamp : Nat
  generator : Option Nat
  deriving DecidableEq, Repr

structure DPSResult where
  stored : List (Nat × Nat × Bool × UnfinishedBlockM)
  sent : List (Nat × Nat × Nat)
  walk_call : Option (Nat × BlockRecordM)
  assembly : Option AssemblyInfo
  deriving DecidableEq, Repr

/-- A handler run that ends with no effect (`return None` before any store or
send, including assertion failures, which abort before any mutation). -/
def dpsAbort : DPSResult := ⟨[], [], none, none⟩

/-- The tail of `declare_proof_of_space` after the previous block is known
(`full_node_api.py:795-940`): resolve the finished sub-slots (aborting on
`None`/`ValueError` or on a sub-slot mismatch with the proof-of-space
sub-slot), compute the monotonic timestamp, assemble and store the primary
candidate, request signed values from the farmer, and — when the primary is a
transaction block carrying a generator — assemble and store the backup
candidate (no generator) under the same quality string and height.  The
difficulty / iteration computations between these steps have no early return
and no observable effect, and are omitted. -/
def dps_assemble (env : DPSEnv) (quality_string now cc_challenge_hash : Nat)
    (pos_sub_slot : Option (EndOfSubSlotBundleM × Nat × Nat)) (generator : Option Nat)
    (walk_call : Option (Nat × BlockRecordM)) (prev_b : Option BlockRecordM) : DPSResult :=
  match env.get_finished_sub_slots prev_b cc_challenge_hash with
  | none => { dpsAbort with walk_call := walk_call }
  | some fss =>
    let mismatch : Bool :=
      !fss.isEmpty &&
        (match pos_sub_slot with
         | some t => decide (fss.getLast? ≠ some t.1)
         | none => false)
    if mismatch then { dpsAbort with walk_call := walk_call }
    else
      let timestamp := compute_timestamp env.try_block_record now prev_b
      let primary := create_unfinished_block env.block_traits timestamp generator
      let height := next_height prev_b
      let ftbh := if primary.is_transaction_block then primary.foliage_transaction_block_hash else 0
      if primary.is_transaction_block ∧ primary.transactions_generator.isSome then
        ⟨[(quality_string, height, false, primary),
            (quality_string, height, true, create_unfinished_block env.block_traits timestamp none)],
          [(quality_string, primary.foliage_hash, ftbh)], walk_call,
          some ⟨prev_b, timestamp, generator⟩⟩
      else
        ⟨[(quality_string, height, false, primary)],
          [(quality_string, primary.foliage_hash, ftbh)], walk_call,
          some ⟨prev_b, timestamp, generator⟩⟩

/-- Embedding of `FullNodeAPI.declare_proof_of_space`
(`full_node_api.py:655-940`) up to the previous-block search, composed with
`dps_assemble`: drop while syncing; drop when the claimed signage point is
unknown; stale-SP guard for non-zero indices (an `assert` failure also aborts
with no effects); resolve `cc_challenge_hash` and the proof-of-space sub-slot
(aborting when missing and non-genesis, or when the `assert
cc_challenge_hash == request.challenge_hash` fails); pull the mempool bundle
for the last transaction block before the peak; then, when a peak exists,
resolve the reward-chain challenge, backtrack through empty sub-slots, and
run the 10-hop previous-block search, failing the whole request when it does
not find a match. -/
def declare_proof_of_space (env : DPSEnv) (request : DPSRequest)
    (quality_string now : Nat) : DPSResult :=
  if env.sync_mode then dpsAbort
  else
    match env.get_signage_point request.challenge_chain_sp with
    | none => dpsAbort
    | some sp_vdfs =>
      if 0 < request.signage_point_index ∧
          sp_vdfs.rc_vdf.map VDFInfoM.output_hash ≠ some request.reward_chain_sp then dpsAbort
      else
        match (if request.signage_point_index = 0 then some request.challenge_chain_sp
               else sp_vdfs.cc_vdf.map VDFInfoM.challenge) with
        | none => dpsAbort
        | some cc_challenge_hash =>
          match (if request.challenge_hash ≠ env.genesis_challenge then
                  match env.get_sub_slot cc_challenge_hash with
                  | none => none
                  | some t => some (some t)
                 else some none) with
          | none => dpsAbort
          | some pos_sub_slot =>
            if cc_challenge_hash ≠ request.challenge_hash then dpsAbort
            else
              match (match env.get_peak with
                     | none => some none
                     | some pk =>
                       match walk_to_last_tx_block env.block_record pk.height pk with
                       | none => none
                       | some ltb => some (env.create_bundle_from_mempool ltb.header_hash)) with
              | none => dpsAbort
              | some bundle_opt =>
                let generator : Option Nat := bundle_opt.map MempoolBundleM.generator
                match env.get_peak with
                | none =>
                  dps_assemble env quality_string now cc_challenge_hash pos_sub_slot generator
                    none none
                | some pk =>
                  match (if request.signage_point_index = 0 then
                          match pos_sub_slot with
                          | none => none
                          | some t => some t.1.rc_challenge
                         else sp_vdfs.rc_vdf.map VDFInfoM.challenge) with
                  | none => dpsAbort
                  | some rc0 =>
                    let rc_challenge := backtrack_empty_sub_slots env.finished_sub_slots rc0
                    match find_prev_block env.try_block_record rc_challenge (some pk) 10 with
                    | (_, false) => { dpsAbort with walk_call := some (rc_challenge, pk) }
                    | (pb, true) =>
                      dps_assemble env quality_string now cc_challenge_hash pos_sub_slot
                        generator (some (rc_challenge, pk)) pb

/-! ## `signed_values` (fallback to backup candidate) -/

/-- Environment read by `signed_values`: the candidate store lookup
(`get_candidate_block(quality_string, backup)`), both signature checks, and
whether propagating the signed block (`respond_unfinished_block`) raises.
Foliage-signature merging (`dataclasses.replace`) is not observable through
the claims and is not modelled. -/
structure SVEnv where
  get_candidate : Nat → Bool → Option (Nat × UnfinishedBlockM)
  verify_sig : Bool
  valid_pool_sig : Bool
  propagate_ok : Bool

/-- Observable effects of `signed_values`: the `add_candidate_block` calls
(quality, height, backup flag, block), the `RequestSignedValues` messages
sent to the farmer, and the blocks handed to `respond_unfinished_block`. -/
structure SVResult where
  added : List (Nat × Nat × Bool × UnfinishedBlockM)
  sent : List (Nat × Nat × Nat)
  propagated : List UnfinishedBlockM
  deriving DecidableEq, Repr

/-- Embedding of `FullNodeAPI.signed_values` (`full_node_api.py:944-1004`):
drop when the quality string has no stored candidate, when the foliage
signature does not verify, or when the pool signature is invalid; otherwise
propagate the signed candidate, and if propagation raises, look up the backup
candidate, re-register it as the primary for the quality string, and request
signed values for it — or end the round with no further action when no backup
exists. -/
def signed_values (env : SVEnv) (quality_string : Nat) : SVResult :=
  match env.get_candidate quality_string false with
  | none => ⟨[], [], []⟩
  | some (_height, candidate) =>
    if !env.verify_sig then ⟨[], [], []⟩
    else if !env.valid_pool_sig then ⟨[], [], []⟩
    else if env.propagate_ok then ⟨[], [], [candidate]⟩
    else
      match env.get_candidate quality_string true with
      | none => ⟨[], [], [candidate]⟩
      | some (height2, backup) =>
        ⟨[(quality_string, height2, false, backup)],
          [(quality_string, backup.foliage_hash, backup.foliage_transaction_block_hash)],
          [candidate]⟩

/-! ## `send_transaction` (wallet resubmission idempotence) -/

/-- Modelled from the spec/usage: `MempoolInclusionStatus`
(`tad/types/mempool_inclusion_status.py`) is not under `src/`; the numeric
values follow the upstream enum (`SUCCESS = 1`, `PENDING = 2`,
`FAILED = 3`). -/
inductive MempoolInclusionStatus where
  | SUCCESS
  | PENDING
  | FAILED
  deriving DecidableEq, Repr

def MempoolInclusionStatus.value : MempoolInclusionStatus → Nat
  | .SUCCESS => 1
  | .PENDING => 2
  | .FAILED => 3

/-- Environment read by `send_transaction`: the `(status, error)` pair
returned by `respond_transaction` for this bundle (errors as numeric codes,
`error.name` modelled as the code itself), and whether
`get_spendbundle(name)` finds the bundle in the mempool. -/
structure SendTxEnv where
  respond_status : MempoolInclusionStatus
  respond_error : Option Nat
  get_spendbundle : Nat → Bool

/-- The fields of the `TransactionAck` sent back to the wallet. -/
structure TransactionAckM where
  txid : Nat
  status : Nat
  error : Option Nat
  deriving DecidableEq, Repr

/-- Embedding of `FullNodeAPI.send_transaction`
(`full_node_api.py:1205-1219`): ack `SUCCESS` with the reported error name on
success; on a non-`SUCCESS` status, ack `SUCCESS` with no error if the bundle
is already retrievable from the mempool (idempotent resubmission), else ack
the actual status and error name. -/
def send_transaction (env : SendTxEnv) (spend_name : Nat) : TransactionAckM :=
  if env.respond_status = .SUCCESS then
    ⟨spend_name, MempoolInclusionStatus.SUCCESS.value, env.respond_error⟩
  else if env.get_spendbundle spend_name then
    ⟨spend_name, MempoolInclusionStatus.SUCCESS.value, none⟩
  else
    ⟨spend_name, env.respond_status.value, env.respond_error⟩

/-! ## `MempoolItem` ordering -/

/-- The fields of `MempoolItem` (`mempool_item.py`) its ordering reads. -/
structure MempoolItemM where
  fee : Nat
  cost : Nat
  spend_bundle_name : Nat
  deriving DecidableEq, Repr

/-- `MempoolItem.fee_per_cost` (`mempool_item.py:28-30`):
`int(self.fee) / int(self.cost)`.  Python's float division is modelled as
exact division in `ℚ`. -/
def MempoolItemM.fee_per_cost (i : MempoolItemM) : ℚ := (i.fee : ℚ) / (i.cost : ℚ)

/-- `MempoolItem.__lt__` (`mempool_item.py:25-26`): items compare by
`fee_per_cost` alone. -/
def MempoolItemM.lt (a b : MempoolItemM) : Prop := a.fee_per_cost < b.fee_per_cost

instance (a b : MempoolItemM) : Decidable (MempoolItemM.lt a b) := by
  unfold MempoolItemM.lt
  infer_instance

/-! ## Concrete inputs used by witness theorems -/

/-- A concrete store with one pending fetch for transaction id 5 (started from
peer 7) whose fan-out set is `{7, 8}`, and one running fetch task id 3. -/
def wStore : FullNodeStore := ⟨[(5, 7)], [(5, [7, 8])], [3]⟩

/-- Environment whose fee pre-check rejects every advertisement. -/
def wEnvFeeLow : NewTxEnv := ⟨false, true, fun _ => false, fun _ _ => false⟩

/-- Environment where every admission pre-check passes. -/
def wEnvPass : NewTxEnv := ⟨false, true, fun _ => false, fun _ _ => true⟩

/-- A concrete end-of-slot bundle whose challenge-chain VDF starts at the
genesis challenge (hash 0). -/
def wSPBundle : EndOfSubSlotBundleM := ⟨0, 5, 3, 5, 4, none, none⟩

/-- A node that stores nothing and a peer that always answers with
`wSPBundle`, so backfill reconverges on the first round. -/
def wSPEnv : NewSPEnv :=
  ⟨false, fun _ _ _ => false, fun _ _ _ => false, fun _ => false, 0, fun _ _ => some wSPBundle⟩

/-- An end-of-sub-slot announcement (index 0) whose previous challenge 9 is
unknown. -/
def wSPMsg : NewSPMsg := ⟨10, 0, 11, some 9⟩

/-- A three-block chain for the `declare_proof_of_space` witnesses: `wB0`
(height 0) and `wB1` (height 1) are transaction blocks, `wB2` (height 2) is
the non-transaction peak. -/
def wB0 : BlockRecordM := ⟨0, 999, 100, 203, [], true, 30⟩

def wB1 : BlockRecordM := ⟨1, 100, 101, 202, [], true, 40⟩

def wB2 : BlockRecordM := ⟨2, 101, 102, 201, [], false, 50⟩

def wChain : Nat → Option BlockRecordM := fun h =>
  if h = 102 then some wB2 else if h = 101 then some wB1 else if h = 100 then some wB0 else none

/-- Proof-of-space sub-slot whose reward-chain end-of-slot challenge equals
the peak's `reward_infusion_new_challenge`, so the previous-block search
succeeds at the peak. -/
def wEOSGood : EndOfSubSlotBundleM := ⟨7, 5, 201, 5, 4, none, none⟩

/-- The same sub-slot with a reward-chain challenge matching no block. -/
def wEOSBad : EndOfSubSlotBundleM := ⟨7, 5, 555, 5, 4, none, none⟩

/-- Environment in which `declare_proof_of_space` reaches assembly: signage
point 7 stored, its sub-slot known, peak `wB2`, a mempool bundle with
generator 77 available, and block creation producing transaction blocks. -/
def wDPSEnvGood : DPSEnv :=
  { sync_mode := false
    get_signage_point := fun h => if h = 7 then some ⟨some ⟨7, 300⟩, some ⟨201, 301⟩⟩ else none
    genesis_challenge := 0
    get_sub_slot := fun h => if h = 7 then some (wEOSGood, 0, 1000) else none
    get_peak := some wB2
    block_record := wChain
    try_block_record := wChain
    finished_sub_slots := []
    create_bundle_from_mempool := fun _ => some ⟨9, [], [], 77⟩
    get_finished_sub_slots := fun _ _ => some []
    block_traits := fun g =>
      match g with
      | some _ => ⟨true, 500, 600⟩
      | none => ⟨true, 501, 601⟩ }

/-- Same node state but the sub-slot's reward-chain challenge (555) descends
from no stored block, so the 10-hop previous-block search fails. -/
def wDPSEnvBad : DPSEnv :=
  { wDPSEnvGood with get_sub_slot := fun h => if h = 7 then some (wEOSBad, 0, 1000) else none }

/-- A `DeclareProofOfSpace` for signage point 7 at index 0. -/
def wDPSReq : DPSRequest := ⟨7, 7, 301, 0⟩

/-- Primary and backup candidates for the `signed_values` witnesses. -/
def wPrimaryBlk : UnfinishedBlockM := ⟨true, some 77, 41, 500, 600⟩

def wBackupBlk : UnfinishedBlockM := ⟨true, none, 41, 501, 601⟩

/-- Candidate store holding both a primary and a backup for quality string
11, valid signatures, and a propagation step that raises. -/
def wSVEnvFail : SVEnv :=
  ⟨fun qs b =>
      if qs = 11 then (if b then some (3, wBackupBlk) else some (3, wPrimaryBlk)) else none,
    true, true, false⟩

/-- Same, but no backup candidate is stored. -/
def wSVEnvNoBackup : SVEnv :=
  ⟨fun qs b => if qs = 11 ∧ b = false then some (3, wPrimaryBlk) else none, true, true, false⟩

/-! ## Theorems -/

theorem alookup_aset_self {α : Type} (m : List (Nat × α)) (k : Nat) (v : α) :
    alookup (aset m k v) k = some v := by
  induction m with
  | nil => simp [aset, alookup]
  | cons hd tl ih =>
    obtain ⟨k', v'⟩ := hd
    by_cases h : k' = k
    · simp [aset, h, alookup]
    · simp [aset, h, alookup, ih]

theorem alookup_aerase_self {α : Type} (m : List (Nat × α)) (k : Nat) :
    alookup (aerase m k) k = none := by
  induction m with
  | nil => simp [aerase, alookup]
  | cons hd tl ih =>
    obtain ⟨k', v'⟩ := hd
    by_cases h : k' = k
    · simpa [aerase, h] using ih
    · simpa [aerase, h, alookup, Ne.symm h] using ih

theorem tx_request_loop_length_le (connected seen_after : Nat → Bool)
    (peers : List Nat) (counter : Nat) (h : counter ≤ 10) :
    (tx_request_loop connected seen_after peers counter).length ≤ 10 - counter := by
  induction peers generalizing counter with
  | nil => simp [tx_request_loop]
  | cons hd tl ih =>
    by_cases h10 : counter = 10
    · subst h10; simp [tx_request_loop]
    · have hlt : counter < 10 := lt_of_le_of_ne h h10
      rw [tx_request_loop]
      simp only [if_neg h10]
      by_cases hc : connected hd = true
      · simp only [hc, if_true]
        by_cases hs : seen_after (counter + 1) = true
        · simp [hs]; omega
        · have hs' : seen_after (counter + 1) = false := by simpa using hs
          have := ih (counter + 1) (by omega)
          simp only [hs', Bool.false_eq_true, if_false, List.length_cons]
          omega
      · have := ih counter h
        simp only [if_neg hc]
        omega

theorem tx_request_loop_seen_le_one (connected seen_after : Nat → Bool)
    (peers : List Nat) (counter : Nat) (hseen : ∀ k, seen_after k = true) :
    (tx_request_loop connected seen_after peers counter).length ≤ 1 := by
  induction peers generalizing counter with
  | nil => simp [tx_request_loop]
  | cons hd tl ih =>
    rw [tx_request_loop]
    by_cases h10 : counter = 10
    · simp [h10]
    · simp only [if_neg h10]
      by_cases hc : connected hd = true
      · simp [hc, hseen (counter + 1)]
      · simpa [hc] using ih counter

theorem aset_lookup_self {α : Type} (m : List (Nat × α)) (k : Nat) (v : α)
    (h : alookup m k = some v) : aset m k v = m := by
  induction m with
  | nil => simp [alookup] at h
  | cons hd tl ih =>
    obtain ⟨k', v'⟩ := hd
    by_cases hk : k' = k
    · subst hk
      simp [alookup] at h
      simp [aset, h]
    · simp [alookup, hk] at h
      simp [aset, hk, ih h]

/-- Claim C1: on `NewTransaction(id, fee, cost)`, if the node is in sync mode
or not yet synced, or the mempool manager has already seen the id, or
`is_fee_enough(fee, cost)` is false, the handler returns `None` leaving the
store untouched (no `pending_tx_request` or `peers_with_tx` entry added),
starts no fetch task, and no `RequestTransaction` is sent for this call. -/
theorem C1_new_transaction_drop (env : NewTxEnv) (store : FullNodeStore)
    (transaction_id fee cost peer_node_id task_id : Nat)
    (h : env.sync_mode = true ∨ env.synced = false ∨ env.seen transaction_id = true ∨
      env.is_fee_enough fee cost = false) :
    new_transaction env store transaction_id fee cost peer_node_id task_id = ⟨store, none⟩ ∧
    ∀ connected seen_after,
      new_transaction_requests env connected seen_after store transaction_id fee cost
        peer_node_id task_id = [] := by
  have hmain : new_transaction env store transaction_id fee cost peer_node_id task_id
      = ⟨store, none⟩ := by
    unfold new_transaction
    rcases h with h | h | h | h <;> simp [h]
  refine ⟨hmain, fun connected seen_after => ?_⟩
  simp only [new_transaction_requests, hmain]

/-- Witness for C1: a `NewTransaction(id=1, fee=0, cost=1000)` whose fee check
fails is dropped with the store unchanged and no request ever sent. -/
theorem C1_witness :
    new_transaction wEnvFeeLow wStore 1 0 1000 2 9 = ⟨wStore, none⟩ ∧
    new_transaction_requests wEnvFeeLow (fun _ => true) (fun _ => false) wStore
      1 0 1000 2 9 = [] := by
  have h := C1_new_transaction_drop wEnvFeeLow wStore 1 0 1000 2 9
    (Or.inr (Or.inr (Or.inr rfl)))
  exact ⟨h.1, h.2 _ _⟩

/-- Claim C2: single-flight fan-in — when a fetch for the transaction id is
already in flight (`pending_tx_request` contains the id), the handler starts
no new fetch task, leaves the single-flight marker and the task table
unchanged, and only adds the advertising peer to the fan-out set for that id;
moreover a fetch task is only ever started when no fetch for the id is in
flight, so at most one fetch task is in flight per id. -/
theorem C2_single_flight_fan_in (env : NewTxEnv) (store : FullNodeStore)
    (transaction_id fee cost peer_node_id task_id q : Nat)
    (hsync : env.sync_mode = false) (hsynced : env.synced = true)
    (hseen : env.seen transaction_id = false)
    (hfee : env.is_fee_enough fee cost = true)
    (hpend : alookup store.pending_tx_request transaction_id = some q) :
    (new_transaction env store transaction_id fee cost peer_node_id task_id).fetch_task_started
        = none ∧
    (new_transaction env store transaction_id fee cost peer_node_id
        task_id).store.pending_tx_request = store.pending_tx_request ∧
    (new_transaction env store transaction_id fee cost peer_node_id
        task_id).store.tx_fetch_tasks = store.tx_fetch_tasks ∧
    alookup (new_transaction env store transaction_id fee cost peer_node_id
        task_id).store.peers_with_tx transaction_id =
      some (insertPeer peer_node_id ((alookup store.peers_with_tx transaction_id).getD [])) ∧
    (∀ s' : FullNodeStore,
      (new_transaction env s' transaction_id fee cost peer_node_id
          task_id).fetch_task_started = some task_id →
      alookup s'.pending_tx_request transaction_id = none) := by
  have hps : (alookup store.pending_tx_request transaction_id).isSome = true := by
    simp [hpend]
  have key : new_transaction env store transaction_id fee cost peer_node_id task_id =
      ⟨{ store with peers_with_tx := aset store.peers_with_tx transaction_id (insertPeer peer_node_id ((alookup store.peers_with_tx transaction_id).getD [])) }, none⟩ := by
    unfold new_transaction
    simp only [hsync, hsynced, hseen, hfee, hps, Bool.not_true, Bool.false_eq_true, if_false,
      if_true, Bool.true_eq_false]
    rcases halk : alookup store.peers_with_tx transaction_id with _ | current_set
    · simp [insertPeer]
    · by_cases hm : peer_node_id ∈ current_set
      · simp [hm, insertPeer, aset_lookup_self _ _ _ halk]
      · simp [hm, insertPeer]
  refine ⟨by rw [key], by rw [key], by rw [key], ?_, ?_⟩
  · rw [key]
    exact alookup_aset_self _ _ _
  · intro s' hstart
    rcases hps' : alookup s'.pending_tx_request transaction_id with _ | q'
    · rfl
    · exfalso
      have hps'' : (alookup s'.pending_tx_request transaction_id).isSome = true := by
        simp [hps']
      unfold new_transaction at hstart
      simp only [hsync, hsynced, hseen, hfee, hps'', Bool.not_true, Bool.false_eq_true,
        if_false, if_true, Bool.true_eq_false] at hstart
      rcases halk : alookup s'.peers_with_tx transaction_id with _ | current_set
      · simp [halk] at hstart
      · by_cases hm : peer_node_id ∈ current_set <;> simp [halk, hm] at hstart

/-- Witness for C2: a second peer (id 2) advertising the in-flight
transaction 5 is merely added to the fan-out set `{7, 8}`. -/
theorem C2_witness :
    (new_transaction wEnvPass wStore 5 10 100 2 9).fetch_task_started = none ∧
    alookup (new_transaction wEnvPass wStore 5 10 100 2 9).store.peers_with_tx 5
      = some [2, 7, 8] := by
  have h := C2_single_flight_fan_in wEnvPass wStore 5 10 100 2 9 7 rfl rfl rfl rfl rfl
  refine ⟨h.1, ?_⟩
  have h4 := h.2.2.2.1
  rw [h4]
  simp [wStore, insertPeer, alookup]

/-- Claim C3: a `tx_request_and_timeout` run sends at most 10 requests, sends
none when the fan-out set is exhausted, stops after at most one round once the
transaction is seen in the mempool, and its `finally` cleanup — applied on
every termination path to whatever store the task observes — leaves the
transaction id absent from `peers_with_tx` and `pending_tx_request` and the
task id absent from `tx_fetch_tasks`. -/
theorem C3_tx_fetch_task (connected seen_after : Nat → Bool) (store : FullNodeStore)
    (transaction_id task_id : Nat) :
    (tx_request_and_timeout connected seen_after store transaction_id task_id).2.length ≤ 10 ∧
    ((alookup store.peers_with_tx transaction_id).getD [] = [] →
      (tx_request_and_timeout connected seen_after store transaction_id task_id).2 = []) ∧
    ((∀ k, seen_after k = true) →
      (tx_request_and_timeout connected seen_after store transaction_id task_id).2.length ≤ 1) ∧
    (tx_request_and_timeout connected seen_after store transaction_id task_id).1 =
      tx_fetch_cleanup store transaction_id task_id ∧
    (∀ s : FullNodeStore,
      alookup (tx_fetch_cleanup s transaction_id task_id).peers_with_tx transaction_id = none ∧
      alookup (tx_fetch_cleanup s transaction_id task_id).pending_tx_request transaction_id
        = none ∧
      task_id ∉ (tx_fetch_cleanup s transaction_id task_id).tx_fetch_tasks) := by
  refine ⟨?_, ?_, ?_, rfl, fun s => ⟨alookup_aerase_self _ _, alookup_aerase_self _ _, ?_⟩⟩
  · simpa using tx_request_loop_length_le connected seen_after
      ((alookup store.peers_with_tx transaction_id).getD []) 0 (by omega)
  · intro h
    simp [tx_request_and_timeout, h, tx_request_loop]
  · intro h
    exact tx_request_loop_seen_le_one connected seen_after _ 0 h
  · simp [tx_fetch_cleanup, List.mem_filter]

/-- Witness for C3: with the transaction already seen after the first round,
the task for transaction 5 / task id 3 sends at most one request, and the
cleanup removes every marker. -/
theorem C3_witness :
    (tx_request_and_timeout (fun _ => true) (fun _ => true) wStore 5 3).2.length ≤ 1 ∧
    alookup (tx_fetch_cleanup wStore 5 3).pending_tx_request 5 = none ∧
    alookup (tx_fetch_cleanup wStore 5 3).peers_with_tx 5 = none ∧
    3 ∉ (tx_fetch_cleanup wStore 5 3).tx_fetch_tasks := by
  have h := C3_tx_fetch_task (fun _ => true) (fun _ => true) wStore 5 3
  exact ⟨h.2.2.1 (fun _ => rfl), (h.2.2.2.2 wStore).2.1, (h.2.2.2.2 wStore).1,
    (h.2.2.2.2 wStore).2.2⟩

theorem backfill_loop_requests_le (env : NewSPEnv) (fuel : Nat) :
    ∀ challenge last_rc num collected,
      (backfill_loop env fuel challenge last_rc num collected).requests.length ≤ fuel := by
  induction fuel with
  | zero =>
    intro ch rc n c
    simp [backfill_loop]
  | succ f ih =>
    intro ch rc n c
    rw [backfill_loop]
    by_cases h3 : 3 ≤ n
    · simp [h3]
    · simp only [if_neg h3]
      rcases hresp : env.peer_response ch rc with _ | eos
      · simp
      · dsimp only
        by_cases hrec : env.get_sub_slot eos.cc_challenge = true ∨
            eos.cc_challenge = env.genesis_challenge
        · simp [hrec]
        · have := ih eos.cc_challenge eos.rc_challenge
            (if eos.cc_iters ≠ eos.rc_iters then n + 1 else n) (c ++ [eos])
          simp only [if_neg hrec, List.length_cons]
          omega

theorem backfill_loop_reconverged (env : NewSPEnv) (fuel : Nat) :
    ∀ challenge last_rc num collected replay,
      (backfill_loop env fuel challenge last_rc num collected).result = .reconverged replay →
      replay =
        (collected ++ (backfill_loop env fuel challenge last_rc num collected).received).reverse := by
  induction fuel with
  | zero =>
    intro ch rc n c rp h
    simp [backfill_loop] at h
  | succ f ih =>
    intro ch rc n c rp h
    rw [backfill_loop] at h ⊢
    by_cases h3 : 3 ≤ n
    · rw [if_pos h3] at h
      simp at h
    · rw [if_neg h3] at h ⊢
      rcases hresp : env.peer_response ch rc with _ | eos
      · rw [hresp] at h
        simp at h
      · rw [hresp] at h
        dsimp only at h ⊢
        by_cases hrec : env.get_sub_slot eos.cc_challenge = true ∨
            eos.cc_challenge = env.genesis_challenge
        · rw [if_pos hrec] at h ⊢
          simp only [BackfillResult.reconverged.injEq] at h
          dsimp only
          exact h.symm
        · rw [if_neg hrec] at h ⊢
          dsimp only at h ⊢
          have := ih eos.cc_challenge eos.rc_challenge _ (c ++ [eos]) rp h
          simpa [List.append_assoc] using this

theorem backfill_loop_diverged (env : NewSPEnv) (fuel challenge last_rc num : Nat)
    (collected : List EndOfSubSlotBundleM) (h : 3 ≤ num) :
    backfill_loop env (fuel + 1) challenge last_rc num collected = ⟨[], [], .diverged⟩ := by
  rw [backfill_loop]
  simp [h]

/-- Claim C4: for a `NewSignagePointOrEndOfSubSlot` with index 0 whose
previous-challenge sub-slot is unknown, the backfill loop issues at most 30
requests, aborts as soon as 3 non-empty sub-slots were seen, and the handler
returns `None` in every backfill outcome; on reconvergence the replayed
end-of-slot bundles are exactly the received ones in reverse receipt order
(oldest first), and nothing is replayed otherwise. -/
theorem C4_backfill_loop (env : NewSPEnv) (m : NewSPMsg) (prev : Nat)
    (hsync : env.sync_mode = false)
    (hsp : env.have_signage_point m.challenge_hash m.index_from_challenge
      m.last_rc_infusion = false)
    (hnewer : env.have_newer_signage_point m.challenge_hash m.index_from_challenge
      m.last_rc_infusion = false)
    (hidx : m.index_from_challenge = 0)
    (hprev : m.prev_challenge_hash = some prev)
    (hmiss : env.get_sub_slot prev = false) :
    (new_signage_point_or_end_of_sub_slot env m).reply = none ∧
    (new_signage_point_or_end_of_sub_slot env m).backfill_requests =
      (backfill_loop env 30 m.challenge_hash m.last_rc_infusion 0 []).requests ∧
    (backfill_loop env 30 m.challenge_hash m.last_rc_infusion 0 []).requests.length ≤ 30 ∧
    (∀ fuel challenge last_rc num collected, 3 ≤ num →
      backfill_loop env (fuel + 1) challenge last_rc num collected = ⟨[], [], .diverged⟩) ∧
    (∀ replay,
      (backfill_loop env 30 m.challenge_hash m.last_rc_infusion 0 []).result
          = .reconverged replay →
      (new_signage_point_or_end_of_sub_slot env m).replayed_eos = replay ∧
      replay = (backfill_loop env 30 m.challenge_hash m.last_rc_infusion 0 []).received.reverse) ∧
    ((∀ replay,
      (backfill_loop env 30 m.challenge_hash m.last_rc_infusion 0 []).result
          ≠ .reconverged replay) →
      (new_signage_point_or_end_of_sub_slot env m).replayed_eos = []) := by
  have hsp' : env.have_signage_point m.challenge_hash 0 m.last_rc_infusion = false := by
    rw [← hidx]; exact hsp
  have hnewer' : env.have_newer_signage_point m.challenge_hash 0 m.last_rc_infusion = false := by
    rw [← hidx]; exact hnewer
  have hred : new_signage_point_or_end_of_sub_slot env m =
      (match (backfill_loop env 30 m.challenge_hash m.last_rc_infusion 0 []).result with
       | .reconverged replay =>
          ⟨(backfill_loop env 30 m.challenge_hash m.last_rc_infusion 0 []).requests, replay, none⟩
       | _ =>
          ⟨(backfill_loop env 30 m.challenge_hash m.last_rc_infusion 0 []).requests, [], none⟩) := by
    unfold new_signage_point_or_end_of_sub_slot
    rw [hprev, hidx]
    simp [hsync, hsp', hnewer', hmiss]
  refine ⟨?_, ?_, backfill_loop_requests_le env 30 _ _ _ _,
    fun fuel ch rc num c h => backfill_loop_diverged env fuel ch rc num c h, ?_, ?_⟩
  · rw [hred]
    rcases hr : (backfill_loop env 30 m.challenge_hash m.last_rc_infusion 0 []).result <;>
      simp [hr]
  · rw [hred]
    rcases hr : (backfill_loop env 30 m.challenge_hash m.last_rc_infusion 0 []).result <;>
      simp [hr]
  · intro replay h
    constructor
    · rw [hred, h]
    · have := backfill_loop_reconverged env 30 m.challenge_hash m.last_rc_infusion 0 [] replay h
      simpa using this
  · intro h
    rw [hred]
    rcases hr : (backfill_loop env 30 m.challenge_hash m.last_rc_infusion 0 []).result with _ | _ | rp | _
    · simp [hr]
    · simp [hr]
    · exact absurd hr (h rp)
    · simp [hr]

/-- Witness for C4: with a peer whose first answer already reaches the
genesis challenge, the handler returns `None` and replays exactly that one
bundle. -/
theorem C4_witness :
    (new_signage_point_or_end_of_sub_slot wSPEnv wSPMsg).reply = none ∧
    (new_signage_point_or_end_of_sub_slot wSPEnv wSPMsg).replayed_eos = [wSPBundle] := by
  have h := C4_backfill_loop wSPEnv wSPMsg 9 rfl rfl rfl rfl rfl rfl
  exact ⟨h.1, (h.2.2.2.2.1 [wSPBundle] rfl).1⟩

theorem declare_reach (env : DPSEnv) (request : DPSRequest) (quality_string now : Nat)
    (sp_vdfs : SignagePointM) (t : EndOfSubSlotBundleM × Nat × Nat) (pk ltb : BlockRecordM)
    (hsync : env.sync_mode = false)
    (hsp : env.get_signage_point request.challenge_chain_sp = some sp_vdfs)
    (hidx : request.signage_point_index = 0)
    (hch : request.challenge_chain_sp = request.challenge_hash)
    (hgen : request.challenge_hash ≠ env.genesis_challenge)
    (hsub : env.get_sub_slot request.challenge_chain_sp = some t)
    (hpeak : env.get_peak = some pk)
    (hltb : walk_to_last_tx_block env.block_record pk.height pk = some ltb) :
    declare_proof_of_space env request quality_string now =
      (match find_prev_block env.try_block_record
          (backtrack_empty_sub_slots env.finished_sub_slots t.1.rc_challenge) (some pk) 10 with
       | (_, false) =>
         { dpsAbort with walk_call := some (backtrack_empty_sub_slots env.finished_sub_slots t.1.rc_challenge, pk) }
       | (pb, true) =>
         dps_assemble env quality_string now request.challenge_chain_sp (some t)
           ((env.create_bundle_from_mempool ltb.header_hash).map MempoolBundleM.generator)
           (some (backtrack_empty_sub_slots env.finished_sub_slots t.1.rc_challenge, pk)) pb) := by
  have hgen' : ¬ request.challenge_hash = env.genesis_challenge := hgen
  have hcc : ¬ request.challenge_chain_sp ≠ request.challenge_hash := by simp [hch]
  unfold declare_proof_of_space
  simp only [hsync, Bool.false_eq_true, if_false, hsp, hidx, hpeak, hsub, hltb, hcc,
    lt_irrefl, false_and, ite_true, ite_false, if_neg, if_pos, ne_eq, hgen',
    not_false_eq_true, Nat.lt_irrefl]

theorem find_prev_block_found (try_block : Nat → Option BlockRecordM) (rc_challenge : Nat) :
    ∀ fuel b, (find_prev_block try_block rc_challenge b fuel).2 = true →
      ∃ k, k < fuel ∧ ∃ blk, nth_prev try_block k b = some blk ∧ rc_matches rc_challenge blk := by
  intro fuel
  induction fuel with
  | zero =>
    intro b h
    rcases b with _ | b <;> simp [find_prev_block] at h
  | succ f ih =>
    intro b h
    rcases b with _ | b
    · simp [find_prev_block] at h
    · rw [find_prev_block] at h
      by_cases h1 : b.reward_infusion_new_challenge = rc_challenge
      · exact ⟨0, by omega, b, rfl, Or.inl h1⟩
      · rw [if_neg h1] at h
        by_cases h2 : b.finished_reward_slot_hashes ≠ [] ∧
            b.finished_reward_slot_hashes.getLast? = some rc_challenge
        · exact ⟨0, by omega, b, rfl, Or.inr h2⟩
        · rw [if_neg h2] at h
          obtain ⟨k, hk, blk, hnth, hm⟩ := ih (try_block b.prev_hash) h
          exact ⟨k + 1, by omega, blk, hnth, hm⟩

theorem dps_assemble_stored_timestamp (env : DPSEnv) (quality_string now cc : Nat)
    (pos_sub_slot : Option (EndOfSubSlotBundleM × Nat × Nat)) (generator : Option Nat)
    (wc : Option (Nat × BlockRecordM)) (prev_b : Option BlockRecordM) :
    ∀ e ∈ (dps_assemble env quality_string now cc pos_sub_slot generator wc prev_b).stored,
      e.2.2.2.timestamp = compute_timestamp env.try_block_record now prev_b := by
  intro e he
  unfold dps_assemble at he
  rcases hfss : env.get_finished_sub_slots prev_b cc with _ | fss
  · rw [hfss] at he
    simp [dpsAbort] at he
  · rw [hfss] at he
    dsimp only at he
    split at he
    · simp [dpsAbort] at he
    · split at he
      · simp only [List.mem_cons, List.not_mem_nil, or_false] at he
        rcases he with he | he <;> (subst he; rfl)
      · simp only [List.mem_cons, List.not_mem_nil, or_false] at he
        subst he
        rfl

/-- Claim C5: in `declare_proof_of_space` with a chain peak, the
previous-block search runs with hop bound 10 — any found block matches within
fewer than 10 `try_block_record` hops from the peak — and when the search
fails the whole request fails: the handler stores no candidate and sends no
message. -/
theorem C5_prev_block_bound (env : DPSEnv) (request : DPSRequest) (quality_string now : Nat)
    (sp_vdfs : SignagePointM) (t : EndOfSubSlotBundleM × Nat × Nat) (pk ltb : BlockRecordM)
    (pb : Option BlockRecordM)
    (hsync : env.sync_mode = false)
    (hsp : env.get_signage_point request.challenge_chain_sp = some sp_vdfs)
    (hidx : request.signage_point_index = 0)
    (hch : request.challenge_chain_sp = request.challenge_hash)
    (hgen : request.challenge_hash ≠ env.genesis_challenge)
    (hsub : env.get_sub_slot request.challenge_chain_sp = some t)
    (hpeak : env.get_peak = some pk)
    (hltb : walk_to_last_tx_block env.block_record pk.height pk = some ltb)
    (hfind : find_prev_block env.try_block_record
      (backtrack_empty_sub_slots env.finished_sub_slots t.1.rc_challenge) (some pk) 10
      = (pb, false)) :
    declare_proof_of_space env request quality_string now =
      { dpsAbort with walk_call := some (backtrack_empty_sub_slots env.finished_sub_slots t.1.rc_challenge, pk) } ∧
    (declare_proof_of_space env request quality_string now).stored = [] ∧
    (declare_proof_of_space env request quality_string now).sent = [] ∧
    (∀ tb rc b fuel, (find_prev_block tb rc b fuel).2 = true →
      ∃ k, k < fuel ∧ ∃ blk, nth_prev tb k b = some blk ∧ rc_matches rc blk) := by
  have hred := declare_reach env request quality_string now sp_vdfs t pk ltb
    hsync hsp hidx hch hgen hsub hpeak hltb
  rw [hfind] at hred
  exact ⟨hred, by rw [hred]; rfl, by rw [hred]; rfl,
    fun tb rc b fuel => find_prev_block_found tb rc fuel b⟩

/-- Witness for C5: with the sub-slot's reward challenge 555 matching no
block in the three-block chain, the request fails with nothing stored or
sent. -/
theorem C5_witness :
    (declare_proof_of_space wDPSEnvBad wDPSReq 42 35).stored = [] ∧
    (declare_proof_of_space wDPSEnvBad wDPSReq 42 35).sent = [] := by
  have h := C5_prev_block_bound wDPSEnvBad wDPSReq 42 35
    ⟨some ⟨7, 300⟩, some ⟨201, 301⟩⟩ (wEOSBad, 0, 1000) wB2 wB1 none
    rfl rfl rfl rfl (by decide) rfl rfl (by decide) (by decide)
  exact ⟨h.2.1, h.2.2.1⟩

/-- Claim C6: every block assembled by `declare_proof_of_space` carries the
handler-computed timestamp, which strictly exceeds the timestamp of the last
transaction block before it: the handler takes `now`, walks back from the
previous block to the nearest transaction block, and bumps to that block's
timestamp plus one when not strictly above it. -/
theorem C6_monotonic_timestamp (env : DPSEnv) (request : DPSRequest) (quality_string now : Nat)
    (sp_vdfs : SignagePointM) (t : EndOfSubSlotBundleM × Nat × Nat) (pk ltb : BlockRecordM)
    (pb : Option BlockRecordM) (curr : BlockRecordM)
    (hsync : env.sync_mode = false)
    (hsp : env.get_signage_point request.challenge_chain_sp = some sp_vdfs)
    (hidx : request.signage_point_index = 0)
    (hch : request.challenge_chain_sp = request.challenge_hash)
    (hgen : request.challenge_hash ≠ env.genesis_challenge)
    (hsub : env.get_sub_slot request.challenge_chain_sp = some t)
    (hpeak : env.get_peak = some pk)
    (hltb : walk_to_last_tx_block env.block_record pk.height pk = some ltb)
    (hfind : find_prev_block env.try_block_record
      (backtrack_empty_sub_slots env.finished_sub_slots t.1.rc_challenge) (some pk) 10
      = (pb, true))
    (hwalk : walk_to_prev_tx_block env.try_block_record (start_fuel pb) pb = some curr)
    (_htx : curr.is_transaction_block = true) :
    compute_timestamp env.try_block_record now pb
        = (if now ≤ curr.timestamp then curr.timestamp + 1 else now) ∧
    curr.timestamp < compute_timestamp env.try_block_record now pb ∧
    ∀ e ∈ (declare_proof_of_space env request quality_string now).stored,
      curr.timestamp < e.2.2.2.timestamp := by
  have hct : compute_timestamp env.try_block_record now pb
      = (if now ≤ curr.timestamp then curr.timestamp + 1 else now) := by
    unfold compute_timestamp
    rw [hwalk]
  have hlt : curr.timestamp < compute_timestamp env.try_block_record now pb := by
    rw [hct]
    split <;> omega
  refine ⟨hct, hlt, ?_⟩
  intro e he
  have hred := declare_reach env request quality_string now sp_vdfs t pk ltb
    hsync hsp hidx hch hgen hsub hpeak hltb
  rw [hfind] at hred
  rw [hred] at he
  have hts := dps_assemble_stored_timestamp env quality_string now request.challenge_chain_sp
    (some t) ((env.create_bundle_from_mempool ltb.header_hash).map MempoolBundleM.generator)
    (some (backtrack_empty_sub_slots env.finished_sub_slots t.1.rc_challenge, pk)) pb e he
  rw [hts]
  exact hlt

/-- Witness for C6: with `now = 35` behind the last transaction block's
timestamp 40, the assembled timestamp is bumped to 41. -/
theorem C6_witness :
    compute_timestamp wChain 35 (some wB2)
        = (if 35 ≤ wB1.timestamp then wB1.timestamp + 1 else 35) ∧
    wB1.timestamp < compute_timestamp wChain 35 (some wB2) := by
  have h := C6_monotonic_timestamp wDPSEnvGood wDPSReq 42 35
    ⟨some ⟨7, 300⟩, some ⟨201, 301⟩⟩ (wEOSGood, 0, 1000) wB2 wB1 (some wB2) wB1
    rfl rfl rfl rfl (by decide) rfl rfl (by decide) (by decide) (by decide) rfl
  exact ⟨h.1, h.2.1⟩

/-- Claim C7: `declare_proof_of_space` silently drops a request whose claimed
`challenge_chain_sp` is not a stored signage point, or whose stored reward
chain signage point hash differs from `reward_chain_sp` at a non-zero index —
no candidate is stored and no message is sent. -/
theorem C7_stale_sp_guard (env : DPSEnv) (request : DPSRequest) (quality_string now : Nat) :
    (env.get_signage_point request.challenge_chain_sp = none →
      declare_proof_of_space env request quality_string now = dpsAbort) ∧
    (∀ sp_vdfs v,
      env.get_signage_point request.challenge_chain_sp = some sp_vdfs →
      0 < request.signage_point_index →
      sp_vdfs.rc_vdf = some v →
      v.output_hash ≠ request.reward_chain_sp →
      declare_proof_of_space env request quality_string now = dpsAbort) ∧
    dpsAbort.stored = [] ∧ dpsAbort.sent = [] := by
  refine ⟨?_, ?_, rfl, rfl⟩
  · intro h
    by_cases hs : env.sync_mode = true
    · simp [declare_proof_of_space, hs]
    · simp [declare_proof_of_space, hs, h]
  · intro sp_vdfs v hsp hpos hrc hne
    by_cases hs : env.sync_mode = true
    · simp [declare_proof_of_space, hs]
    · have hguard : 0 < request.signage_point_index ∧
          sp_vdfs.rc_vdf.map VDFInfoM.output_hash ≠ some request.reward_chain_sp := by
        refine ⟨hpos, ?_⟩
        rw [hrc]
        simpa using hne
      simp [declare_proof_of_space, hs, hsp, hguard]

/-- Witness for C7: a request naming signage point 8, which is not stored,
is dropped with no effect. -/
theorem C7_witness :
    declare_proof_of_space wDPSEnvGood ⟨8, 8, 0, 0⟩ 42 35 = dpsAbort :=
  (C7_stale_sp_guard wDPSEnvGood ⟨8, 8, 0, 0⟩ 42 35).1 rfl

/-- Claim C8: `declare_proof_of_space` stores a backup candidate under the
same quality string and height exactly when the primary block is a
transaction block carrying a generator; and in `signed_values`, a propagation
error makes the handler re-register the backup as primary and request signed
values for it, while without a backup the round ends with no further
action. -/
theorem C8_backup_candidate (env : DPSEnv) (request : DPSRequest) (quality_string now : Nat)
    (sp_vdfs : SignagePointM) (t : EndOfSubSlotBundleM × Nat × Nat) (pk ltb : BlockRecordM)
    (pb : Option BlockRecordM) (fss : List EndOfSubSlotBundleM)
    (ts : Nat) (gen : Option Nat) (primary backup : UnfinishedBlockM)
    (hsync : env.sync_mode = false)
    (hsp : env.get_signage_point request.challenge_chain_sp = some sp_vdfs)
    (hidx : request.signage_point_index = 0)
    (hch : request.challenge_chain_sp = request.challenge_hash)
    (hgen : request.challenge_hash ≠ env.genesis_challenge)
    (hsub : env.get_sub_slot request.challenge_chain_sp = some t)
    (hpeak : env.get_peak = some pk)
    (hltb : walk_to_last_tx_block env.block_record pk.height pk = some ltb)
    (hfind : find_prev_block env.try_block_record
      (backtrack_empty_sub_slots env.finished_sub_slots t.1.rc_challenge) (some pk) 10
      = (pb, true))
    (hfss : env.get_finished_sub_slots pb request.challenge_chain_sp = some fss)
    (hno : fss.isEmpty = true ∨ fss.getLast? = some t.1)
    (hts : ts = compute_timestamp env.try_block_record now pb)
    (hgen2 : gen = (env.create_bundle_from_mempool ltb.header_hash).map MempoolBundleM.generator)
    (hpri : primary = create_unfinished_block env.block_traits ts gen)
    (hbak : backup = create_unfinished_block env.block_traits ts none) :
    (primary.is_transaction_block = true ∧ primary.transactions_generator.isSome = true →
      (declare_proof_of_space env request quality_string now).stored =
        [(quality_string, next_height pb, false, primary),
          (quality_string, next_height pb, true, backup)]) ∧
    ((primary.is_transaction_block = true ∧ primary.transactions_generator.isSome = true → False) →
      (declare_proof_of_space env request quality_string now).stored =
        [(quality_string, next_height pb, false, primary)]) ∧
    (∀ (sv : SVEnv) (qs h h2 : Nat) (cand bkp : UnfinishedBlockM),
      sv.get_candidate qs false = some (h, cand) →
      sv.verify_sig = true → sv.valid_pool_sig = true → sv.propagate_ok = false →
      sv.get_candidate qs true = some (h2, bkp) →
      signed_values sv qs =
        ⟨[(qs, h2, false, bkp)], [(qs, bkp.foliage_hash, bkp.foliage_transaction_block_hash)],
          [cand]⟩) ∧
    (∀ (sv : SVEnv) (qs h : Nat) (cand : UnfinishedBlockM),
      sv.get_candidate qs false = some (h, cand) →
      sv.verify_sig = true → sv.valid_pool_sig = true → sv.propagate_ok = false →
      sv.get_candidate qs true = none →
      signed_values sv qs = ⟨[], [], [cand]⟩) := by
  have hred := declare_reach env request quality_string now sp_vdfs t pk ltb
    hsync hsp hidx hch hgen hsub hpeak hltb
  rw [hfind] at hred
  have hmisf : (!fss.isEmpty && decide (fss.getLast? ≠ some t.1)) = false := by
    rcases hno with h | h <;> simp [h]
  refine ⟨?_, ?_, ?_, ?_⟩
  · intro hc
    rw [hred]
    dsimp only
    unfold dps_assemble
    rw [hfss]
    dsimp only
    rw [hmisf]
    rw [← hts, ← hgen2, ← hpri, ← hbak]
    rw [if_neg (by simp), if_pos hc]
  · intro hnc
    rw [hred]
    dsimp only
    unfold dps_assemble
    rw [hfss]
    dsimp only
    rw [hmisf]
    rw [← hts, ← hgen2, ← hpri]
    rw [if_neg (by simp), if_neg hnc]
  · intro sv qs h h2 cand bkp hget hv hp hprop hgetb
    unfold signed_values
    rw [hget]
    simp [hv, hp, hprop, hgetb]
  · intro sv qs h cand hget hv hp hprop hgetb
    unfold signed_values
    rw [hget]
    simp [hv, hp, hprop, hgetb]

/-- Witness for C8: the good environment stores primary and backup for
quality string 42 at height 3; a failing propagation with a stored backup
re-registers it and re-requests signatures, and without a backup nothing
further happens. -/
theorem C8_witness :
    (declare_proof_of_space wDPSEnvGood wDPSReq 42 35).stored =
      [(42, 3, false, wPrimaryBlk), (42, 3, true, wBackupBlk)] ∧
    signed_values wSVEnvFail 11 =
      ⟨[(11, 3, false, wBackupBlk)],
        [(11, wBackupBlk.foliage_hash, wBackupBlk.foliage_transaction_block_hash)],
        [wPrimaryBlk]⟩ ∧
    signed_values wSVEnvNoBackup 11 = ⟨[], [], [wPrimaryBlk]⟩ := by
  have h := C8_backup_candidate wDPSEnvGood wDPSReq 42 35
    ⟨some ⟨7, 300⟩, some ⟨201, 301⟩⟩ (wEOSGood, 0, 1000) wB2 wB1 (some wB2) []
    41 (some 77) wPrimaryBlk wBackupBlk
    rfl rfl rfl rfl (by decide) rfl rfl (by decide) (by decide) rfl (Or.inl rfl)
    (by decide) rfl (by decide) (by decide)
  exact ⟨h.1 (by decide), h.2.2.1 wSVEnvFail 11 3 3 wPrimaryBlk wBackupBlk rfl rfl rfl rfl rfl,
    h.2.2.2 wSVEnvNoBackup 11 3 wPrimaryBlk rfl rfl rfl rfl rfl⟩

/-- Claim C9: `MempoolItem` ordering compares by `fee_per_cost` alone —
`a < b` iff `a.fee / a.cost < b.fee / b.cost` — so two items with equal
fee-to-cost ratios are mutually incomparable.  Python's float division is
modelled as exact division in `ℚ`. -/
theorem C9_fee_per_cost_ordering (a b : MempoolItemM) (ha : 0 < a.cost) (hb : 0 < b.cost) :
    (MempoolItemM.lt a b ↔ (a.fee : ℚ) / (a.cost : ℚ) < (b.fee : ℚ) / (b.cost : ℚ)) ∧
    (a.fee_per_cost = b.fee_per_cost → ¬ MempoolItemM.lt a b ∧ ¬ MempoolItemM.lt b a) ∧
    (a.fee * b.cost = b.fee * a.cost → ¬ MempoolItemM.lt a b ∧ ¬ MempoolItemM.lt b a) := by
  have key : a.fee_per_cost = b.fee_per_cost → ¬ MempoolItemM.lt a b ∧ ¬ MempoolItemM.lt b a := by
    intro h
    unfold MempoolItemM.lt
    rw [h]
    exact ⟨lt_irrefl _, lt_irrefl _⟩
  refine ⟨Iff.rfl, key, fun hcross => key ?_⟩
  have hca : (a.cost : ℚ) ≠ 0 := Nat.cast_ne_zero.mpr ha.ne'
  have hcb : (b.cost : ℚ) ≠ 0 := Nat.cast_ne_zero.mpr hb.ne'
  unfold MempoolItemM.fee_per_cost
  rw [div_eq_div_iff hca hcb]
  exact_mod_cast hcross

/-- Witness for C9: items with fees 1/2 and costs 2/4 have equal ratios and
are mutually incomparable. -/
theorem C9_witness :
    ¬ MempoolItemM.lt ⟨1, 2, 0⟩ ⟨2, 4, 1⟩ ∧ ¬ MempoolItemM.lt ⟨2, 4, 1⟩ ⟨1, 2, 0⟩ :=
  (C9_fee_per_cost_ordering ⟨1, 2, 0⟩ ⟨2, 4, 1⟩ (by decide) (by decide)).2.2 (by decide)

/-- Claim C10: `send_transaction` acks `SUCCESS` with no error when admission
returned a non-`SUCCESS` status but the bundle is already retrievable from the
mempool (idempotent resubmission); otherwise the ack carries the actual
admission status and the present error name. -/
theorem C10_send_transaction_idempotent (env : SendTxEnv) (spend_name : Nat) :
    (env.respond_status ≠ .SUCCESS → env.get_spendbundle spend_name = true →
      send_transaction env spend_name =
        ⟨spend_name, MempoolInclusionStatus.SUCCESS.value, none⟩) ∧
    (env.respond_status ≠ .SUCCESS → env.get_spendbundle spend_name = false →
      send_transaction env spend_name =
        ⟨spend_name, env.respond_status.value, env.respond_error⟩) ∧
    (env.respond_status = .SUCCESS →
      send_transaction env spend_name =
        ⟨spend_name, MempoolInclusionStatus.SUCCESS.value, env.respond_error⟩) := by
  refine ⟨?_, ?_, ?_⟩
  · intro h1 h2
    simp [send_transaction, h1, h2]
  · intro h1 h2
    simp [send_transaction, h1, h2]
  · intro h1
    simp [send_transaction, h1]

/-- Witness for C10: a `FAILED` admission of a bundle already in the mempool
is acked as `SUCCESS` (value 1) with no error. -/
theorem C10_witness :
    send_transaction ⟨.FAILED, some 6, fun _ => true⟩ 5 = ⟨5, 1, none⟩ :=
  (C10_send_transaction_idempotent ⟨.FAILED, some 6, fun _ => true⟩ 5).1 (by decide) rfl

end Tad
